import Mathlib

/-!
# Verification of the dizziness differential-diagnosis prediction app

Shallow embedding of the core logic of `app.py`:

* the fixed feature schema `INPUT_FEATURES` (82 ordered feature names);
* the sidebar answer-collection function `create_sidebar_inputs`;
* the form-to-vector mapper (`input_data = {feat: inputs.get(feat, np.nan) for feat in INPUT_FEATURES}`
  in `main`), here `buildInputData`;
* the prediction engine `predict_all_models` and `get_top_prediction`;
* the model loader `load_models`;
* the SHAP ranking pipeline of `generate_shap_plot`.

Numeric feature values are modelled as rationals; the `np.nan` missing
sentinel is modelled as a distinct constructor `FVal.fnan` (it is used only
as an opaque sentinel by the mapper, never arithmetically).
-/

/-- A value stored in the `inputs` dictionary / feature vector: a number
(Python float/int, modelled as `ℚ`), a string (`patient_name`), or the
`np.nan` missing sentinel used by `main`'s dict comprehension. -/
inductive FVal where
  | fnum (q : ℚ)
  | fstr (s : String)
  | fnan
deriving DecidableEq, Repr

/-- The canonical ordered feature schema, transcribed from `INPUT_FEATURES`
in `app.py` (lines 111–141). -/
def INPUT_FEATURES : List String := [
  "symptoms_frequency", "symptoms_recurrence", "symptom_recent",
  "symptom_remote_cat", "symptom_remote_cat_is_1st_attack",
  "symptom_remote_cat_is_within_30days", "symptom_remote_cat_is_within_1years",
  "symptom_remote_cat_is_over_1year", "symptoms_true_vertigo",
  "symptoms_dizziness_duration_ongoing", "symptoms_duration_minutes",
  "symptoms_duration_minutes_cat_gen", "symptoms_duration_minutes_cat_gen_is_several_sec",
  "symptoms_duration_minutes_cat_gen_is_several_min", "symptoms_duration_minutes_cat_gen_is_several_hours",
  "symptoms_duration_minutes_cat_gen_is_several_days", "symptoms_duration_minutes_cat_20m",
  "symptoms_duration_minutes_cat_20m_is_several_sec", "symptoms_duration_minutes_cat_20m_is_several_min",
  "symptoms_duration_minutes_cat_20m_is_several_hours", "symptoms_duration_minutes_cat_20m_is_several_days",
  "symptoms_nausea", "symptoms_vomiting", "symptoms_headache", "symptoms_black_out",
  "symptoms_agg_factor_position_change", "symptoms_agg_factor_head_rotation",
  "symptoms_agg_factor_eyes_moving", "symptoms_agg_factor_moving",
  "symptoms_agg_factor_no_moving", "symptoms_agg_factor_position_change_combined",
  "symptoms_rel_factor_rest", "symptoms_rel_factor_eyes_closed",
  "symptoms_hearing_impairment_combined", "symptoms_tinnitus", "symptoms_ear_fullness",
  "history_dm", "history_htn", "history_pul_tbc", "history_asthma",
  "history_kidney", "history_entop", "history_trauma", "history_ear_disease",
  "history_neckop", "history_brain_disease", "history_metabolic_disease",
  "history_coronary_disease", "history_stomach", "history_bph", "history_gynecologic",
  "history_eye_disease", "history_psychiatric", "history_thyroid_disease",
  "history_pci", "history_abdominalop", "history_respiratory_disease",
  "history_orthopedicop", "history_ra", "history_autoimmune_disease",
  "etc_sn_right", "etc_sn_left", "etc_gaze_right", "etc_gaze_left",
  "etc_dht_right", "etc_dht_left", "etc_rht_right", "etc_rht_left",
  "etc_gn_right", "etc_gn_left", "etc_hit_right", "etc_hit_left",
  "etc_hsn_right", "etc_hsn_left", "etc_htt_right", "etc_htt_left",
  "etc_skew_deviation_right", "etc_skew_deviation_left",
  "etc_weber_right", "etc_weber_left", "age", "sex"]

/-- The form-to-vector mapper of `main` (app.py line 502):
`input_data = {feat: inputs.get(feat, np.nan) for feat in INPUT_FEATURES}`.
The `inputs` answer set is an insertion-ordered dictionary, modelled as an
association list; `dict.get(feat, np.nan)` is the first-match lookup with
`np.nan` as the default. -/
def buildInputData (inputs : List (String × FVal)) : List (String × FVal) :=
  INPUT_FEATURES.map (fun feat => (feat, ((inputs.lookup feat).getD FVal.fnan)))

/-- First-match lookup over a key-value map built by mapping over the key
list: any key of the list is sent to its image. -/
theorem lookup_map_keys {β : Type} (g : String → β) (f : String) :
    ∀ l : List String, f ∈ l → (l.map (fun x => (x, g x))).lookup f = some (g f) := by
  intro l hf
  induction l with
  | nil => cases hf
  | cons a l ih =>
    rcases List.mem_cons.mp hf with h | h
    · subst h
      simp [List.lookup]
    · by_cases hfa : f = a
      · subst hfa
        simp [List.lookup]
      · have hba : (f == a) = false := beq_eq_false_iff_ne.mpr hfa
        simpa [List.lookup, hba] using ih h

/-- The spec's scenario answer set: only age (45), sex (female, coded 1),
true vertigo, duration ("several minutes", which the form expands into the
ordinal code 2.0, the four one-hot indicators of each of the two duration
coding schemes, and the minute estimate 5), and recurrence are answered;
no history or exam answer is present. -/
def scenario_answers : List (String × FVal) := [
  ("age", FVal.fnum 45), ("sex", FVal.fnum 1),
  ("symptoms_true_vertigo", FVal.fnum 1), ("symptoms_recurrence", FVal.fnum 1),
  ("symptoms_duration_minutes_cat_gen", FVal.fnum 2),
  ("symptoms_duration_minutes_cat_gen_is_several_sec", FVal.fnum 0),
  ("symptoms_duration_minutes_cat_gen_is_several_min", FVal.fnum 1),
  ("symptoms_duration_minutes_cat_gen_is_several_hours", FVal.fnum 0),
  ("symptoms_duration_minutes_cat_gen_is_several_days", FVal.fnum 0),
  ("symptoms_duration_minutes_cat_20m", FVal.fnum 2),
  ("symptoms_duration_minutes_cat_20m_is_several_sec", FVal.fnum 0),
  ("symptoms_duration_minutes_cat_20m_is_several_min", FVal.fnum 1),
  ("symptoms_duration_minutes_cat_20m_is_several_hours", FVal.fnum 0),
  ("symptoms_duration_minutes_cat_20m_is_several_days", FVal.fnum 0),
  ("symptoms_duration_minutes", FVal.fnum 5)]

/-- C1 (counterexample to the claim as stated): the schema has 82 feature
names, not 80, so the mapper output does not consist of "exactly the 80
Schema feature names". -/
theorem C1_schema_count_counterexample :
    (buildInputData []).length = 82 ∧ ¬ (buildInputData []).length = 80 := by
  decide

/-- C1 (amended: 82 features, not 80): for every answer set, the mapper's
output has exactly the schema's 82 feature names as keys, in schema order
(no missing or extra keys, since the schema list has no duplicates); every
schema feature absent from the answer set maps to the `np.nan` missing
sentinel, not zero; and in the spec's scenario answer set, every history
and exam (`etc_`) feature holds the missing sentinel. -/
theorem C1_mapper_schema_complete :
    (∀ inputs : List (String × FVal), (buildInputData inputs).map Prod.fst = INPUT_FEATURES)
    ∧ INPUT_FEATURES.length = 82 ∧ INPUT_FEATURES.Nodup
    ∧ (∀ inputs : List (String × FVal), ∀ f ∈ INPUT_FEATURES,
        inputs.lookup f = none → (buildInputData inputs).lookup f = some FVal.fnan)
    ∧ (∀ f ∈ INPUT_FEATURES,
        ("history_".toList.isPrefixOf f.toList ∨ "etc_".toList.isPrefixOf f.toList) →
        (buildInputData scenario_answers).lookup f = some FVal.fnan) := by
  refine ⟨?_, by decide, by decide, ?_, by decide⟩
  · intro inputs
    rw [buildInputData, List.map_map]
    exact List.map_id _
  · intro inputs f hf hnone
    have h2 := lookup_map_keys (fun feat => ((inputs.lookup feat).getD FVal.fnan)) f
      INPUT_FEATURES hf
    rw [buildInputData, h2]
    simp [hnone]

/-- C1 witness: the amended theorem applied at concrete inputs. -/
theorem C1_mapper_schema_complete_witness :
    (buildInputData []).map Prod.fst = INPUT_FEATURES
    ∧ (buildInputData []).lookup "history_dm" = some FVal.fnan
    ∧ (buildInputData scenario_answers).lookup "etc_weber_left" = some FVal.fnan :=
  ⟨C1_mapper_schema_complete.1 [],
   C1_mapper_schema_complete.2.2.2.1 [] "history_dm" (by decide) rfl,
   C1_mapper_schema_complete.2.2.2.2 "etc_weber_left" (by decide) (Or.inr (by decide))⟩

/-- `float(st.checkbox(...))`: an unchecked box contributes 0.0, a checked
box 1.0. -/
def bool2q (b : Bool) : ℚ := if b then 1 else 0

/-- The four options of the "어지럼증 지속 시간" (duration) selectbox:
"수 초" (seconds) / "수 분" (minutes) / "수 시간" (hours) / "수 일" (days). -/
inductive DurationChoice where
  | sec
  | minutes
  | hours
  | days
deriving DecidableEq, Repr

/-- `duration_cat_options`: the ordinal code of each duration option. -/
def durationCode : DurationChoice → ℚ
  | .sec => 1
  | .minutes => 2
  | .hours => 3
  | .days => 4

/-- `duration_minutes_map`: the minute estimate for each duration option
(0.5, 5, 120, 1440). -/
def durationMinutes : DurationChoice → ℚ
  | .sec => 1 / 2
  | .minutes => 5
  | .hours => 120
  | .days => 1440

/-- The four options of the "과거 어지럼증 발생 시점" (remote onset)
selectbox: "첫 발작" (first attack) / "30일 이내" (within 30 days) /
"1년 이내" (within 1 year) / "1년 이상" (over 1 year). -/
inductive RemoteChoice where
  | first_attack
  | within_30days
  | within_1year
  | over_1year
deriving DecidableEq, Repr

/-- `remote_cat_options`: the ordinal code of each remote-onset option. -/
def remoteCode : RemoteChoice → ℚ
  | .first_attack => 0
  | .within_30days => 1
  | .within_1year => 2
  | .over_1year => 3

/-- The five options of the "어지럼증 발생 빈도" (frequency) selectbox. -/
inductive FreqChoice where
  | once
  | twoToThree
  | fourToFive
  | sixToTen
  | overTen
deriving DecidableEq, Repr

/-- `frequency_options`: the ordinal code of each frequency option. -/
def freqCode : FreqChoice → ℚ
  | .once => 1
  | .twoToThree => 2
  | .fourToFive => 3
  | .sixToTen => 4
  | .overTen => 5

/-- The state of every sidebar widget (one field per Streamlit widget of
`create_sidebar_inputs`): the text input, the two number inputs, the three
selectboxes, and each checkbox. -/
structure FormState where
  patient_name : String
  age : ℚ
  sex_female : Bool
  true_vertigo : Bool
  ongoing : Bool
  recent : ℚ
  frequency : FreqChoice
  recurrence : Bool
  duration : DurationChoice
  remote : RemoteChoice
  nausea : Bool
  vomiting : Bool
  headache : Bool
  blackout : Bool
  hearing : Bool
  tinnitus : Bool
  ear_fullness : Bool
  agg_position : Bool
  agg_head : Bool
  agg_eyes : Bool
  agg_moving : Bool
  agg_no_moving : Bool
  rel_rest : Bool
  rel_eyes : Bool
  hist_dm : Bool
  hist_htn : Bool
  hist_ear : Bool
  hist_brain : Bool
  hist_thyroid : Bool
  hist_psych : Bool
  hist_coronary : Bool
  hist_trauma : Bool
  hist_entop : Bool
  hist_metabolic : Bool
  hist_autoimmune : Bool
  hist_respiratory : Bool
  sn_r : Bool
  gaze_r : Bool
  dht_r : Bool
  rht_r : Bool
  sn_l : Bool
  gaze_l : Bool
  dht_l : Bool
  rht_l : Bool
  hit_r : Bool
  hsn_r : Bool
  htt_r : Bool
  hit_l : Bool
  hsn_l : Bool
  htt_l : Bool

/-- The `inputs` dictionary built by `create_sidebar_inputs` (app.py lines
208–368), in the code's insertion order.  Derived entries are transcribed
from the source: the one-hot duration/remote indicators come from equality
tests on the selected option, the `cat_20m` entries copy the `cat_gen`
entries, `symptoms_agg_factor_position_change_combined` copies
`symptoms_agg_factor_position_change`, and the `other_history` / `other_etc`
loops append the unasked features with value 0.0 (none of those keys is
already present, so every one is appended). -/
def create_sidebar_inputs (fs : FormState) : List (String × FVal) :=
  [("patient_name", FVal.fstr fs.patient_name),
   ("age", FVal.fnum fs.age),
   ("sex", FVal.fnum (if fs.sex_female then 1 else 0)),
   ("symptoms_true_vertigo", FVal.fnum (bool2q fs.true_vertigo)),
   ("symptoms_dizziness_duration_ongoing", FVal.fnum (bool2q fs.ongoing)),
   ("symptom_recent", FVal.fnum fs.recent),
   ("symptoms_frequency", FVal.fnum (freqCode fs.frequency)),
   ("symptoms_recurrence", FVal.fnum (bool2q fs.recurrence)),
   ("symptoms_duration_minutes_cat_gen", FVal.fnum (durationCode fs.duration)),
   ("symptoms_duration_minutes_cat_gen_is_several_sec",
     FVal.fnum (if fs.duration = .sec then 1 else 0)),
   ("symptoms_duration_minutes_cat_gen_is_several_min",
     FVal.fnum (if fs.duration = .minutes then 1 else 0)),
   ("symptoms_duration_minutes_cat_gen_is_several_hours",
     FVal.fnum (if fs.duration = .hours then 1 else 0)),
   ("symptoms_duration_minutes_cat_gen_is_several_days",
     FVal.fnum (if fs.duration = .days then 1 else 0)),
   ("symptoms_duration_minutes_cat_20m", FVal.fnum (durationCode fs.duration)),
   ("symptoms_duration_minutes_cat_20m_is_several_sec",
     FVal.fnum (if fs.duration = .sec then 1 else 0)),
   ("symptoms_duration_minutes_cat_20m_is_several_min",
     FVal.fnum (if fs.duration = .minutes then 1 else 0)),
   ("symptoms_duration_minutes_cat_20m_is_several_hours",
     FVal.fnum (if fs.duration = .hours then 1 else 0)),
   ("symptoms_duration_minutes_cat_20m_is_several_days",
     FVal.fnum (if fs.duration = .days then 1 else 0)),
   ("symptoms_duration_minutes", FVal.fnum (durationMinutes fs.duration)),
   ("symptom_remote_cat", FVal.fnum (remoteCode fs.remote)),
   ("symptom_remote_cat_is_1st_attack",
     FVal.fnum (if fs.remote = .first_attack then 1 else 0)),
   ("symptom_remote_cat_is_within_30days",
     FVal.fnum (if fs.remote = .within_30days then 1 else 0)),
   ("symptom_remote_cat_is_within_1years",
     FVal.fnum (if fs.remote = .within_1year then 1 else 0)),
   ("symptom_remote_cat_is_over_1year",
     FVal.fnum (if fs.remote = .over_1year then 1 else 0)),
   ("symptoms_nausea", FVal.fnum (bool2q fs.nausea)),
   ("symptoms_vomiting", FVal.fnum (bool2q fs.vomiting)),
   ("symptoms_headache", FVal.fnum (bool2q fs.headache)),
   ("symptoms_black_out", FVal.fnum (bool2q fs.blackout)),
   ("symptoms_hearing_impairment_combined", FVal.fnum (bool2q fs.hearing)),
   ("symptoms_tinnitus", FVal.fnum (bool2q fs.tinnitus)),
   ("symptoms_ear_fullness", FVal.fnum (bool2q fs.ear_fullness)),
   ("symptoms_agg_factor_position_change", FVal.fnum (bool2q fs.agg_position)),
   ("symptoms_agg_factor_head_rotation", FVal.fnum (bool2q fs.agg_head)),
   ("symptoms_agg_factor_eyes_moving", FVal.fnum (bool2q fs.agg_eyes)),
   ("symptoms_agg_factor_moving", FVal.fnum (bool2q fs.agg_moving)),
   ("symptoms_agg_factor_no_moving", FVal.fnum (bool2q fs.agg_no_moving)),
   ("symptoms_agg_factor_position_change_combined", FVal.fnum (bool2q fs.agg_position)),
   ("symptoms_rel_factor_rest", FVal.fnum (bool2q fs.rel_rest)),
   ("symptoms_rel_factor_eyes_closed", FVal.fnum (bool2q fs.rel_eyes)),
   ("history_dm", FVal.fnum (bool2q fs.hist_dm)),
   ("history_htn", FVal.fnum (bool2q fs.hist_htn)),
   ("history_ear_disease", FVal.fnum (bool2q fs.hist_ear)),
   ("history_brain_disease", FVal.fnum (bool2q fs.hist_brain)),
   ("history_thyroid_disease", FVal.fnum (bool2q fs.hist_thyroid)),
   ("history_psychiatric", FVal.fnum (bool2q fs.hist_psych)),
   ("history_coronary_disease", FVal.fnum (bool2q fs.hist_coronary)),
   ("history_trauma", FVal.fnum (bool2q fs.hist_trauma)),
   ("history_entop", FVal.fnum (bool2q fs.hist_entop)),
   ("history_metabolic_disease", FVal.fnum (bool2q fs.hist_metabolic)),
   ("history_autoimmune_disease", FVal.fnum (bool2q fs.hist_autoimmune)),
   ("history_respiratory_disease", FVal.fnum (bool2q fs.hist_respiratory)),
   ("history_pul_tbc", FVal.fnum 0), ("history_asthma", FVal.fnum 0),
   ("history_kidney", FVal.fnum 0), ("history_neckop", FVal.fnum 0),
   ("history_stomach", FVal.fnum 0), ("history_bph", FVal.fnum 0),
   ("history_gynecologic", FVal.fnum 0), ("history_eye_disease", FVal.fnum 0),
   ("history_pci", FVal.fnum 0), ("history_abdominalop", FVal.fnum 0),
   ("history_orthopedicop", FVal.fnum 0), ("history_ra", FVal.fnum 0),
   ("etc_sn_right", FVal.fnum (bool2q fs.sn_r)),
   ("etc_gaze_right", FVal.fnum (bool2q fs.gaze_r)),
   ("etc_dht_right", FVal.fnum (bool2q fs.dht_r)),
   ("etc_rht_right", FVal.fnum (bool2q fs.rht_r)),
   ("etc_sn_left", FVal.fnum (bool2q fs.sn_l)),
   ("etc_gaze_left", FVal.fnum (bool2q fs.gaze_l)),
   ("etc_dht_left", FVal.fnum (bool2q fs.dht_l)),
   ("etc_rht_left", FVal.fnum (bool2q fs.rht_l)),
   ("etc_hit_right", FVal.fnum (bool2q fs.hit_r)),
   ("etc_hsn_right", FVal.fnum (bool2q fs.hsn_r)),
   ("etc_htt_right", FVal.fnum (bool2q fs.htt_r)),
   ("etc_hit_left", FVal.fnum (bool2q fs.hit_l)),
   ("etc_hsn_left", FVal.fnum (bool2q fs.hsn_l)),
   ("etc_htt_left", FVal.fnum (bool2q fs.htt_l)),
   ("etc_gn_right", FVal.fnum 0), ("etc_gn_left", FVal.fnum 0),
   ("etc_skew_deviation_right", FVal.fnum 0), ("etc_skew_deviation_left", FVal.fnum 0),
   ("etc_weber_right", FVal.fnum 0), ("etc_weber_left", FVal.fnum 0)]

/-- Exactly one of four indicator values is 1 and the other three are 0. -/
def oneHot4 (a b c d : ℚ) : Prop :=
  (a = 1 ∧ b = 0 ∧ c = 0 ∧ d = 0) ∨ (a = 0 ∧ b = 1 ∧ c = 0 ∧ d = 0) ∨
  (a = 0 ∧ b = 0 ∧ c = 1 ∧ d = 0) ∨ (a = 0 ∧ b = 0 ∧ c = 0 ∧ d = 1)

/-- C5: for every form state, the four duration-bucket indicators derived
from the (mutually exclusive) duration selectbox are one-hot — exactly one
is 1.0 and the rest are 0.0 — and likewise the four remote-onset indicators
derived from the remote-onset selectbox. -/
theorem C5_one_hot_indicators (fs : FormState) :
    (∃ a b c d : ℚ,
      (create_sidebar_inputs fs).lookup "symptoms_duration_minutes_cat_gen_is_several_sec"
        = some (FVal.fnum a)
      ∧ (create_sidebar_inputs fs).lookup "symptoms_duration_minutes_cat_gen_is_several_min"
        = some (FVal.fnum b)
      ∧ (create_sidebar_inputs fs).lookup "symptoms_duration_minutes_cat_gen_is_several_hours"
        = some (FVal.fnum c)
      ∧ (create_sidebar_inputs fs).lookup "symptoms_duration_minutes_cat_gen_is_several_days"
        = some (FVal.fnum d)
      ∧ oneHot4 a b c d)
    ∧ (∃ a b c d : ℚ,
      (create_sidebar_inputs fs).lookup "symptom_remote_cat_is_1st_attack"
        = some (FVal.fnum a)
      ∧ (create_sidebar_inputs fs).lookup "symptom_remote_cat_is_within_30days"
        = some (FVal.fnum b)
      ∧ (create_sidebar_inputs fs).lookup "symptom_remote_cat_is_within_1years"
        = some (FVal.fnum c)
      ∧ (create_sidebar_inputs fs).lookup "symptom_remote_cat_is_over_1year"
        = some (FVal.fnum d)
      ∧ oneHot4 a b c d) := by
  constructor
  · refine ⟨_, _, _, _, rfl, rfl, rfl, rfl, ?_⟩
    cases hd : fs.duration <;> simp [oneHot4, hd]
  · refine ⟨_, _, _, _, rfl, rfl, rfl, rfl, ?_⟩
    cases hr : fs.remote <;> simp [oneHot4, hr]

/-- C6: for every form state, the alias features are kept in lockstep with
their primaries: the `cat_20m` duration code and each of its four one-hot
indicators equal the corresponding `cat_gen` entries, and
`symptoms_agg_factor_position_change_combined` equals
`symptoms_agg_factor_position_change`. -/
theorem C6_alias_features_lockstep (fs : FormState) :
    (create_sidebar_inputs fs).lookup "symptoms_duration_minutes_cat_20m"
      = (create_sidebar_inputs fs).lookup "symptoms_duration_minutes_cat_gen"
    ∧ (create_sidebar_inputs fs).lookup "symptoms_duration_minutes_cat_20m_is_several_sec"
      = (create_sidebar_inputs fs).lookup "symptoms_duration_minutes_cat_gen_is_several_sec"
    ∧ (create_sidebar_inputs fs).lookup "symptoms_duration_minutes_cat_20m_is_several_min"
      = (create_sidebar_inputs fs).lookup "symptoms_duration_minutes_cat_gen_is_several_min"
    ∧ (create_sidebar_inputs fs).lookup "symptoms_duration_minutes_cat_20m_is_several_hours"
      = (create_sidebar_inputs fs).lookup "symptoms_duration_minutes_cat_gen_is_several_hours"
    ∧ (create_sidebar_inputs fs).lookup "symptoms_duration_minutes_cat_20m_is_several_days"
      = (create_sidebar_inputs fs).lookup "symptoms_duration_minutes_cat_gen_is_several_days"
    ∧ (create_sidebar_inputs fs).lookup "symptoms_agg_factor_position_change_combined"
      = (create_sidebar_inputs fs).lookup "symptoms_agg_factor_position_change" :=
  ⟨rfl, rfl, rfl, rfl, rfl, rfl⟩

/-- The running-maximum loop of Python's `max(probabilities,
key=probabilities.get)`: scan the remaining items, replacing the current
best only on a strictly greater value, so the first item attaining the
maximum wins.  (For a dict, iteration yields the keys in insertion order
and `probabilities.get` returns the paired value; we carry the pair.) -/
def pyMaxGoP (best : String × ℚ) : List (String × ℚ) → String × ℚ
  | [] => best
  | x :: rest => if best.2 < x.2 then pyMaxGoP x rest else pyMaxGoP best rest

/-- `max(probabilities, key=probabilities.get)` over the insertion-ordered
dict; `none` models the `ValueError` Python raises on an empty dict. -/
def pyDictMax : List (String × ℚ) → Option String
  | [] => none
  | x :: rest => some (pyMaxGoP x rest).1

/-- `get_top_prediction` (app.py lines 387–391): the key with the maximal
probability, paired with `probabilities[top_disease]` (modelled by the
first-match lookup; `getD 0` is unreachable since the key is present). -/
def get_top_prediction (probabilities : List (String × ℚ)) : Option (String × ℚ) :=
  match pyDictMax probabilities with
  | none => none
  | some d => some (d, ((probabilities.lookup d).getD 0))

theorem pyMaxGoP_mem : ∀ (l : List (String × ℚ)) (best : String × ℚ),
    pyMaxGoP best l ∈ best :: l := by
  intro l
  induction l with
  | nil => intro best; simp [pyMaxGoP]
  | cons x rest ih =>
    intro best
    rw [pyMaxGoP]
    by_cases h : best.2 < x.2
    · rw [if_pos h]
      rcases List.mem_cons.mp (ih x) with h1 | h1
      · simp [h1]
      · simp [List.mem_cons.mpr (Or.inr h1)]
    · rw [if_neg h]
      rcases List.mem_cons.mp (ih best) with h1 | h1
      · simp [h1]
      · simp [List.mem_cons.mpr (Or.inr h1)]

theorem pyMaxGoP_ge : ∀ (l : List (String × ℚ)) (best : String × ℚ),
    ∀ x ∈ best :: l, x.2 ≤ (pyMaxGoP best l).2 := by
  intro l
  induction l with
  | nil => intro best x hx; simp at hx; simp [pyMaxGoP, hx]
  | cons y rest ih =>
    intro best x hx
    rw [pyMaxGoP]
    rcases List.mem_cons.mp hx with h1 | h1
    · rw [h1]
      by_cases h : best.2 < y.2
      · rw [if_pos h]
        exact le_of_lt (lt_of_lt_of_le h (ih y y (List.mem_cons_self y rest)))
      · rw [if_neg h]
        exact ih best best (List.mem_cons_self best rest)
    · rcases List.mem_cons.mp h1 with h2 | h2
      · rw [h2]
        by_cases h : best.2 < y.2
        · rw [if_pos h]
          exact ih y y (List.mem_cons_self y rest)
        · rw [if_neg h]
          exact le_trans (le_of_not_lt h) (ih best best (List.mem_cons_self best rest))
      · by_cases h : best.2 < y.2
        · rw [if_pos h]
          exact ih y x (List.mem_cons.mpr (Or.inr h2))
        · rw [if_neg h]
          exact ih best x (List.mem_cons.mpr (Or.inr h2))

theorem pyMaxGoP_of_le : ∀ (l : List (String × ℚ)) (best : String × ℚ),
    (∀ x ∈ l, x.2 ≤ best.2) → pyMaxGoP best l = best := by
  intro l
  induction l with
  | nil => intro best _; rfl
  | cons y rest ih =>
    intro best h
    rw [pyMaxGoP, if_neg (not_lt.mpr (h y (List.mem_cons_self y rest)))]
    exact ih best (fun x hx => h x (List.mem_cons.mpr (Or.inr hx)))

/-- If every item before `(d, p)` has a strictly smaller value (including
the seed `best`) and every item after has value `≤ p`, the scan returns
`(d, p)`: Python's `max` keeps the first maximum. -/
theorem pyMaxGoP_first_max : ∀ (pre : List (String × ℚ)) (best : String × ℚ)
    (d : String) (p : ℚ) (suf : List (String × ℚ)),
    best.2 < p → (∀ x ∈ pre, x.2 < p) → (∀ x ∈ suf, x.2 ≤ p) →
    pyMaxGoP best (pre ++ (d, p) :: suf) = (d, p) := by
  intro pre
  induction pre with
  | nil =>
    intro best d p suf hb _ hsuf
    rw [List.nil_append, pyMaxGoP, if_pos hb]
    exact pyMaxGoP_of_le suf (d, p) hsuf
  | cons a pre ih =>
    intro best d p suf hb hpre hsuf
    rw [List.cons_append, pyMaxGoP]
    by_cases h : best.2 < a.2
    · rw [if_pos h]
      exact ih a d p suf (hpre a (List.mem_cons_self a pre))
        (fun x hx => hpre x (List.mem_cons.mpr (Or.inr hx))) hsuf
    · rw [if_neg h]
      exact ih best d p suf hb
        (fun x hx => hpre x (List.mem_cons.mpr (Or.inr hx))) hsuf

/-- First-match lookup of a member pair under duplicate-free keys. -/
theorem lookup_of_mem_nodup_keys : ∀ (l : List (String × ℚ)) (k : String) (v : ℚ),
    (k, v) ∈ l → (l.map Prod.fst).Nodup → l.lookup k = some v := by
  intro l
  induction l with
  | nil => intro k v hm _; cases hm
  | cons a t ih =>
    intro k v hm hn
    rcases List.mem_cons.mp hm with h1 | h1
    · subst h1
      simp [List.lookup]
    · have hka : k ≠ a.1 := by
        intro hk
        have : k ∈ t.map Prod.fst := List.mem_map.mpr ⟨(k, v), h1, rfl⟩
        rw [List.map_cons] at hn
        exact (List.nodup_cons.mp hn).1 (hk ▸ this)
      obtain ⟨a1, a2⟩ := a
      have hba : (k == a1) = false := beq_eq_false_iff_ne.mpr hka
      rw [List.map_cons] at hn
      simpa [List.lookup, hba] using ih k v h1 (List.nodup_cons.mp hn).2

/-- The fixed insertion order of the five disease labels (`FILE_IDS`,
app.py lines 92–98), which `load_models` and `predict_all_models`
preserve. -/
def DISEASE_LABELS : List String := ["BPPV", "VN", "SSNHL", "Meniere", "Others"]

/-- C2: for every prediction result keyed by the five disease labels,
`get_top_prediction` returns a label of the fixed 5-element set together
with that label's own entry, and that entry is greater than or equal to
every entry of the result. -/
theorem C2_select_top_is_max (probabilities : List (String × ℚ))
    (hkeys : probabilities.map Prod.fst = DISEASE_LABELS) :
    ∃ d p, get_top_prediction probabilities = some (d, p)
      ∧ d ∈ DISEASE_LABELS
      ∧ probabilities.lookup d = some p
      ∧ ∀ x ∈ probabilities, x.2 ≤ p := by
  cases probabilities with
  | nil => simp [DISEASE_LABELS] at hkeys
  | cons b rest =>
    have hmem : pyMaxGoP b rest ∈ b :: rest := pyMaxGoP_mem rest b
    have hnodup : ((b :: rest).map Prod.fst).Nodup := by rw [hkeys]; decide
    have hlook : (b :: rest).lookup (pyMaxGoP b rest).1 = some (pyMaxGoP b rest).2 :=
      lookup_of_mem_nodup_keys _ _ _ (by simpa using hmem) hnodup
    refine ⟨(pyMaxGoP b rest).1, (pyMaxGoP b rest).2, ?_, ?_, hlook, pyMaxGoP_ge rest b⟩
    · simp [get_top_prediction, pyDictMax, hlook]
    · rw [← hkeys]
      exact List.mem_map.mpr ⟨pyMaxGoP b rest, hmem, rfl⟩

/-- C2 witness: the spec's scenario probabilities
{BPPV 0.71, VN 0.20, SSNHL 0.05, Meniere 0.03, Others 0.01}. -/
theorem C2_select_top_is_max_witness :
    ∃ d p, get_top_prediction [("BPPV", 71/100), ("VN", 20/100), ("SSNHL", 5/100),
        ("Meniere", 3/100), ("Others", 1/100)] = some (d, p)
      ∧ d ∈ DISEASE_LABELS
      ∧ ([("BPPV", (71:ℚ)/100), ("VN", 20/100), ("SSNHL", 5/100),
        ("Meniere", 3/100), ("Others", 1/100)]).lookup d = some p
      ∧ ∀ x ∈ ([("BPPV", (71:ℚ)/100), ("VN", 20/100), ("SSNHL", 5/100),
        ("Meniere", 3/100), ("Others", 1/100)]), x.2 ≤ p :=
  C2_select_top_is_max _ (by decide)

/-- C10: tie-breaking in `get_top_prediction` is deterministic and follows
the fixed label order: on a result keyed by the five labels in insertion
order, the first entry attaining the maximum (every earlier entry strictly
smaller, every later entry no larger — so in particular when two or more
entries share the maximum) is the one returned. -/
theorem C10_select_top_tie_first (pre suf : List (String × ℚ)) (d : String) (p : ℚ)
    (hkeys : (pre ++ (d, p) :: suf).map Prod.fst = DISEASE_LABELS)
    (hpre : ∀ x ∈ pre, x.2 < p) (hsuf : ∀ x ∈ suf, x.2 ≤ p) :
    get_top_prediction (pre ++ (d, p) :: suf) = some (d, p) := by
  have hnodup : ((pre ++ (d, p) :: suf).map Prod.fst).Nodup := by rw [hkeys]; decide
  have hmem : (d, p) ∈ pre ++ (d, p) :: suf :=
    List.mem_append.mpr (Or.inr (List.mem_cons_self _ _))
  have hlook := lookup_of_mem_nodup_keys _ d p hmem hnodup
  cases pre with
  | nil =>
    rw [List.nil_append] at hlook ⊢
    simp [get_top_prediction, pyDictMax, pyMaxGoP_of_le suf (d, p) hsuf, hlook]
  | cons a pre =>
    have hfirst := pyMaxGoP_first_max pre a d p suf
      (hpre a (List.mem_cons_self a pre))
      (fun x hx => hpre x (List.mem_cons.mpr (Or.inr hx))) hsuf
    rw [List.cons_append] at hlook ⊢
    simp [get_top_prediction, pyDictMax, hfirst, hlook]

/-- C10 witness: BPPV and Meniere tie at the maximum 1; the first label in
insertion order, BPPV, is returned. -/
theorem C10_select_top_tie_first_witness :
    get_top_prediction [("BPPV", 1), ("VN", 0), ("SSNHL", 0),
      ("Meniere", 1), ("Others", 0)] = some ("BPPV", 1) :=
  C10_select_top_tie_first [] [("VN", 0), ("SSNHL", 0), ("Meniere", 1), ("Others", 0)]
    "BPPV" 1 (by decide) (by decide)
    (by intro x hx; fin_cases hx <;> norm_num)

/-- The single-row dataframe `input_df` passed to every model (built by
`pd.DataFrame([input_data])` from the mapper's output). -/
abbrev Df := List (String × FVal)

/-- An opaque trained classifier's scoring call
`model.predict_proba(input_df)[0][1]`: it returns the positive-class
probability for the single row, or raises (`Except.error`). -/
abbrev ModelFn := Df → Except String ℚ

/-- `predict_all_models` (app.py lines 373–385): score every model on the
one dataframe in insertion order; a model whose scoring call raises gets
probability 0.0 and a surfaced error (`st.error(f"{name} 모델 예측 오류:
{e}")`, modelled as the (name, message) list in the second component), and
the loop continues with the remaining models. -/
def predict_all_models (models : List (String × ModelFn)) (input_df : Df) :
    List (String × ℚ) × List (String × String) :=
  match models with
  | [] => ([], [])
  | (name, model) :: rest =>
    let r := predict_all_models rest input_df
    match model input_df with
    | .ok prob => ((name, prob) :: r.1, r.2)
    | .error e => ((name, 0) :: r.1, (name, e) :: r.2)

/-- Closed form of `predict_all_models`: the probability entry of each model
in order (0 on failure), and the surfaced errors of the failing models in
order. -/
theorem predict_all_models_eq (models : List (String × ModelFn)) (input_df : Df) :
    predict_all_models models input_df =
      (models.map (fun nm => (nm.1, match nm.2 input_df with
        | .ok p => p
        | .error _ => 0)),
       models.filterMap (fun nm => match nm.2 input_df with
        | .ok _ => none
        | .error e => some (nm.1, e))) := by
  induction models with
  | nil => rfl
  | cons a rest ih =>
    obtain ⟨name, model⟩ := a
    rw [predict_all_models, ih]
    cases h : model input_df with
    | ok p => simp [List.filterMap_cons, h]
    | error e => simp [List.filterMap_cons, h]

/-- C3: the prediction result has exactly one entry per disease label, in
the model set's order; when the scoring call of one model raises while all
the others succeed, that disease's entry is 0.0, every other disease's
entry is its model's returned positive-class probability, exactly that one
error is surfaced, and the run is not aborted (every entry is present). -/
theorem C3_predict_graceful_degradation
    (pre suf : List (String × ModelFn)) (n0 : String) (m0 : ModelFn)
    (e : String) (input_df : Df)
    (hnodup : ((pre ++ (n0, m0) :: suf).map Prod.fst).Nodup)
    (hfail : m0 input_df = .error e)
    (hok : ∀ nm ∈ pre ++ suf, ∃ q, nm.2 input_df = Except.ok q) :
    ((predict_all_models (pre ++ (n0, m0) :: suf) input_df).1).map Prod.fst
      = (pre ++ (n0, m0) :: suf).map Prod.fst
    ∧ ((predict_all_models (pre ++ (n0, m0) :: suf) input_df).1).lookup n0 = some 0
    ∧ (∀ nm ∈ pre ++ suf, ∀ q, nm.2 input_df = Except.ok q →
        ((predict_all_models (pre ++ (n0, m0) :: suf) input_df).1).lookup nm.1 = some q)
    ∧ (predict_all_models (pre ++ (n0, m0) :: suf) input_df).2 = [(n0, e)] := by
  have hval : ∀ models : List (String × ModelFn),
      (predict_all_models models input_df).1 = models.map (fun nm =>
        (nm.1, match nm.2 input_df with
          | .ok p => p
          | .error _ => 0)) :=
    fun models => congrArg Prod.fst (predict_all_models_eq models input_df)
  have herr : ∀ models : List (String × ModelFn),
      (predict_all_models models input_df).2 = models.filterMap (fun nm =>
        match nm.2 input_df with
        | .ok _ => none
        | .error e => some (nm.1, e)) :=
    fun models => congrArg Prod.snd (predict_all_models_eq models input_df)
  have hkeys : ((predict_all_models (pre ++ (n0, m0) :: suf) input_df).1).map Prod.fst
      = (pre ++ (n0, m0) :: suf).map Prod.fst := by
    rw [hval, List.map_map]
    rfl
  refine ⟨hkeys, ?_, ?_, ?_⟩
  · apply lookup_of_mem_nodup_keys _ n0 0 _ (hkeys ▸ hnodup)
    rw [hval]
    refine List.mem_map.mpr ⟨(n0, m0), ?_, ?_⟩
    · exact List.mem_append.mpr (Or.inr (List.mem_cons_self _ _))
    · simp [hfail]
  · intro nm hnm q hq
    apply lookup_of_mem_nodup_keys _ nm.1 q _ (hkeys ▸ hnodup)
    rw [hval]
    refine List.mem_map.mpr ⟨nm, ?_, ?_⟩
    · rcases List.mem_append.mp hnm with h | h
      · exact List.mem_append.mpr (Or.inl h)
      · exact List.mem_append.mpr (Or.inr (List.mem_cons.mpr (Or.inr h)))
    · simp [hq]
  · rw [herr, List.filterMap_append, List.filterMap_cons]
    have hnone : ∀ l : List (String × ModelFn), (∀ nm ∈ l, ∃ q, nm.2 input_df = Except.ok q) →
        l.filterMap (fun nm => match nm.2 input_df with
          | .ok _ => none
          | .error e => some (nm.1, e)) = [] := by
      intro l hl
      rw [List.filterMap_eq_nil_iff]
      intro nm hnm
      obtain ⟨q, hq⟩ := hl nm hnm
      simp [hq]
    rw [hnone pre (fun nm hnm => hok nm (List.mem_append.mpr (Or.inl hnm))),
      hnone suf (fun nm hnm => hok nm (List.mem_append.mpr (Or.inr hnm)))]
    simp [hfail]

/-- A stub scoring call that always returns probability `q`. -/
def demo_ok (q : ℚ) : ModelFn := fun _ => .ok q

/-- A stub scoring call that always raises with message `e`. -/
def demo_fail (e : String) : ModelFn := fun _ => .error e

/-- C3 witness: the VN model raises while the other four succeed; VN's
entry is 0, the others keep their probabilities, and exactly the VN error
is surfaced. -/
theorem C3_predict_graceful_degradation_witness :
    ((predict_all_models [("BPPV", demo_ok (7/10)), ("VN", demo_fail "boom"),
        ("SSNHL", demo_ok (1/20)), ("Meniere", demo_ok (3/100)),
        ("Others", demo_ok (1/100))] []).1).lookup "VN" = some 0
    ∧ ((predict_all_models [("BPPV", demo_ok (7/10)), ("VN", demo_fail "boom"),
        ("SSNHL", demo_ok (1/20)), ("Meniere", demo_ok (3/100)),
        ("Others", demo_ok (1/100))] []).1).lookup "BPPV" = some (7/10)
    ∧ (predict_all_models [("BPPV", demo_ok (7/10)), ("VN", demo_fail "boom"),
        ("SSNHL", demo_ok (1/20)), ("Meniere", demo_ok (3/100)),
        ("Others", demo_ok (1/100))] []).2 = [("VN", "boom")] := by
  have h := C3_predict_graceful_degradation [("BPPV", demo_ok (7/10))]
    [("SSNHL", demo_ok (1/20)), ("Meniere", demo_ok (3/100)), ("Others", demo_ok (1/100))]
    "VN" (demo_fail "boom") "boom" []
    (by decide) rfl
    (by intro nm hnm
        fin_cases hnm <;> exact ⟨_, rfl⟩)
  exact ⟨h.2.1,
    h.2.2.1 ("BPPV", demo_ok (7/10)) (List.mem_append.mpr (Or.inl (List.mem_cons_self _ _)))
      (7/10) rfl,
    h.2.2.2⟩

/-- C9 (counterexample to the claim as stated): the claim speaks of "the 80
Schema features", but the schema has 82 features, so no 80-element feature
set matches it. -/
theorem C9_schema_count_counterexample :
    INPUT_FEATURES.length = 82 ∧ ¬ INPUT_FEATURES.length = 80 := by
  decide

/-- C9 (amended: 82 features, not 80): `predict_all_models` is a pure
function of the model set and the mapped vector — in this embedding two
calls on identical arguments are literally the same value — and no answer
outside the schema influences the result: whenever two answer sets agree on
every schema feature (they may differ on `patient_name`, which is not a
schema feature), the mapped vectors and hence the prediction results
coincide. -/
theorem C9_predict_pure_schema_only
    (models : List (String × ModelFn)) (inputs1 inputs2 : List (String × FVal))
    (hagree : ∀ f ∈ INPUT_FEATURES, inputs1.lookup f = inputs2.lookup f) :
    "patient_name" ∉ INPUT_FEATURES
    ∧ buildInputData inputs1 = buildInputData inputs2
    ∧ predict_all_models models (buildInputData inputs1)
      = predict_all_models models (buildInputData inputs2) := by
  have hb : buildInputData inputs1 = buildInputData inputs2 := by
    rw [buildInputData, buildInputData]
    exact List.map_congr_left (fun f hf => by rw [hagree f hf])
  exact ⟨by decide, hb, by rw [hb]⟩

/-- C9 witness: adding a patient name to the scenario answer set changes
nothing in the mapped vector or the prediction. -/
theorem C9_predict_pure_schema_only_witness :
    "patient_name" ∉ INPUT_FEATURES
    ∧ buildInputData scenario_answers
      = buildInputData (("patient_name", FVal.fstr "홍길동") :: scenario_answers)
    ∧ predict_all_models [("BPPV", demo_ok (7/10))] (buildInputData scenario_answers)
      = predict_all_models [("BPPV", demo_ok (7/10))]
          (buildInputData (("patient_name", FVal.fstr "홍길동") :: scenario_answers)) :=
  C9_predict_pure_schema_only [("BPPV", demo_ok (7/10))] scenario_answers
    (("patient_name", FVal.fstr "홍길동") :: scenario_answers) (by decide)

/-- The Google Drive file id of each disease model artifact (`FILE_IDS`,
app.py lines 92–98). -/
def FILE_IDS : List (String × String) := [
  ("BPPV", "1BfcFZ6-RnQbg_Qo4eO8YbkkRR-9CvZdg"),
  ("VN", "158NQ9j_OKQoaA5JpMCjl1NgqKqc2Ezdb"),
  ("SSNHL", "1EiKOeCMv55m3021VW5FNTZcylZLATSTE"),
  ("Meniere", "1v_9jwfd6w9iJyiAIRplMOqJfqRiEqvSY"),
  ("Others", "1giDrrAwDntoAm9Xt8vS1eMrKo4zVlBwG")]

/-- The external world `load_models` interacts with: the (possibly failed)
Google Drive service handle, the per-file-id download outcome
(`download_file_from_drive` catches its own exceptions and returns a
boolean), and the deserialization outcome of `joblib.load` on each model's
temp file (which may raise). `Model` is the opaque loaded artifact type. -/
structure DriveEnv (Service Model : Type) where
  service : Option Service
  download : Service → String → Bool
  loadArtifact : Service → String → Except String Model

/-- The per-model loop body of `load_models`: download each artifact by
file id and deserialize it; on a failed download or a raised
deserialization error, surface an error and return `None` at once. -/
def load_models_go {Service Model : Type} (env : DriveEnv Service Model) (svc : Service) :
    List (String × String) → Option (List (String × Model))
  | [] => some []
  | (name, fid) :: rest =>
    if env.download svc fid then
      match env.loadArtifact svc name with
      | .ok m =>
        match load_models_go env svc rest with
        | some ms => some ((name, m) :: ms)
        | none => none
      | .error _ => none
    else none

/-- `load_models` (app.py lines 180–203): build the Drive service, then
download and deserialize the five artifacts of `FILE_IDS` in order;
`None` on the first failure, otherwise the complete mapping. -/
def load_models {Service Model : Type} (env : DriveEnv Service Model) :
    Option (List (String × Model)) :=
  match env.service with
  | none => none
  | some svc => load_models_go env svc FILE_IDS

theorem load_models_go_keys {Service Model : Type} (env : DriveEnv Service Model)
    (svc : Service) : ∀ (l : List (String × String)) (ms : List (String × Model)),
    load_models_go env svc l = some ms → ms.map Prod.fst = l.map Prod.fst := by
  intro l
  induction l with
  | nil =>
    intro ms h
    rw [load_models_go] at h
    cases h
    rfl
  | cons a rest ih =>
    intro ms h
    obtain ⟨name, fid⟩ := a
    rw [load_models_go] at h
    by_cases hd : env.download svc fid
    · rw [if_pos hd] at h
      cases hl : env.loadArtifact svc name with
      | ok m =>
        rw [hl] at h
        cases hr : load_models_go env svc rest with
        | some ms2 =>
          rw [hr] at h
          cases h
          simpa using ih ms2 hr
        | none => rw [hr] at h; cases h
      | error e => rw [hl] at h; cases h
    · rw [if_neg hd] at h
      cases h

theorem load_models_go_fail {Service Model : Type} (env : DriveEnv Service Model)
    (svc : Service) : ∀ (l : List (String × String)) (name fid : String),
    (name, fid) ∈ l →
    (env.download svc fid = false ∨ ∃ e, env.loadArtifact svc name = .error e) →
    load_models_go env svc l = none := by
  intro l
  induction l with
  | nil => intro name fid hm _; cases hm
  | cons a rest ih =>
    intro name fid hm hbad
    obtain ⟨aname, afid⟩ := a
    rw [load_models_go]
    rcases List.mem_cons.mp hm with h1 | h1
    · cases h1
      rcases hbad with hb | ⟨e, hb⟩
      · rw [hb]
        rfl
      · by_cases hdd : env.download svc fid
        · rw [if_pos hdd, hb]
        · rw [if_neg hdd]
    · by_cases hdd : env.download svc afid
      · rw [if_pos hdd]
        cases hl : env.loadArtifact svc aname with
        | ok m => rw [ih name fid h1 hbad]
        | error e => rfl
      · rw [if_neg hdd]

/-- C4: `load_models` is all-or-nothing.  Whenever it returns a mapping,
that mapping has exactly the five disease labels as keys (in `FILE_IDS`
order); and whenever any one of the five artifacts cannot be retrieved
(`download_file_from_drive` returns false) or deserialized (`joblib.load`
raises), it returns the failure value `None` — never a partial set. -/
theorem C4_load_models_all_or_nothing {Service Model : Type}
    (env : DriveEnv Service Model) :
    (∀ ms : List (String × Model), load_models env = some ms →
      ms.map Prod.fst = DISEASE_LABELS)
    ∧ (∀ svc : Service, env.service = some svc →
        ∀ p ∈ FILE_IDS,
        (env.download svc p.2 = false ∨ ∃ e, env.loadArtifact svc p.1 = .error e) →
        load_models env = none) := by
  constructor
  · intro ms h
    rw [load_models] at h
    cases hs : env.service with
    | none => rw [hs] at h; cases h
    | some svc =>
      rw [hs] at h
      rw [load_models_go_keys env svc FILE_IDS ms h]
      rfl
  · intro svc hs p hp hbad
    rw [load_models, hs]
    exact load_models_go_fail env svc FILE_IDS p.1 p.2 (by simpa using hp) hbad

/-- A demo environment in which every fetch and deserialization succeeds
(the loaded artifact is just the model's name). -/
def demo_env_ok : DriveEnv Unit String where
  service := some ()
  download := fun _ _ => true
  loadArtifact := fun _ name => .ok name

/-- A demo environment in which exactly the VN artifact fails to download. -/
def demo_env_badfetch : DriveEnv Unit String where
  service := some ()
  download := fun _ fid => fid != "158NQ9j_OKQoaA5JpMCjl1NgqKqc2Ezdb"
  loadArtifact := fun _ name => .ok name

/-- C4 witness: with every artifact available the returned mapping carries
all five labels, and with one failing download the whole load returns
`None`. -/
theorem C4_load_models_all_or_nothing_witness :
    ([("BPPV", "BPPV"), ("VN", "VN"), ("SSNHL", "SSNHL"), ("Meniere", "Meniere"),
      ("Others", "Others")].map Prod.fst = DISEASE_LABELS)
    ∧ load_models demo_env_badfetch = none :=
  ⟨(C4_load_models_all_or_nothing demo_env_ok).1
      [("BPPV", "BPPV"), ("VN", "VN"), ("SSNHL", "SSNHL"), ("Meniere", "Meniere"),
        ("Others", "Others")] rfl,
   (C4_load_models_all_or_nothing demo_env_badfetch).2 () rfl
      ("VN", "158NQ9j_OKQoaA5JpMCjl1NgqKqc2Ezdb") (by decide) (Or.inl (by decide))⟩

/-- The explainer's output inside `generate_shap_plot`:
`explainer.shap_values(input_df)` together with `explainer.expected_value`.
A binary-output model exposes a single attribution matrix (rows × features)
with a scalar baseline; other models expose a Python list of two matrices
(negative/positive class) with a two-element baseline. -/
inductive ShapOutput where
  | single (vals : List (List ℚ)) (expected : ℚ)
  | pair (neg pos : List (List ℚ)) (expectedNeg expectedPos : ℚ)

/-- The branch at app.py lines 405–410: `sv = shap_values[1][0]` and
`base_value = explainer.expected_value[1]` when the explainer returned a
list, else `sv = shap_values[0]` and the scalar baseline. -/
def select_sv_base : ShapOutput → List ℚ × ℚ
  | .single vals e => (vals.headD [], e)
  | .pair _ pos _ epos => (pos.headD [], epos)

/-- The attribution matrix the call computed (the positive-class one in the
two-class case): the rows from which `sv` is taken. -/
def shapRows : ShapOutput → List (List ℚ)
  | .single vals _ => vals
  | .pair _ pos _ _ => pos

/-- `np.abs(sv)`. -/
def absList (sv : List ℚ) : List ℚ := sv.map (fun q => |q|)

/-- Descending comparison of two indices by their entries of the key array
(out-of-range reads as 0, never hit on `range`). -/
def descKeyRel (key : List ℚ) (i j : ℕ) : Prop := key.getD j 0 ≤ key.getD i 0

instance descKeyRel_decidable (key : List ℚ) : DecidableRel (descKeyRel key) :=
  fun i j => inferInstanceAs (Decidable (key.getD j 0 ≤ key.getD i 0))

instance descKeyRel_total (key : List ℚ) : IsTotal ℕ (descKeyRel key) :=
  ⟨fun i j => le_total (key.getD j 0) (key.getD i 0)⟩

instance descKeyRel_trans (key : List ℚ) : IsTrans ℕ (descKeyRel key) :=
  ⟨fun _ _ _ hij hjk => le_trans hjk hij⟩

/-- `np.argsort(key)[::-1]`: the feature indices ordered by descending key
value.  (numpy's default argsort leaves the relative order of tied keys
unspecified; a stable insertion sort realizes one valid outcome.) -/
def argsortDesc (key : List ℚ) : List ℕ :=
  List.insertionSort (descKeyRel key) (List.range key.length)

/-- The data behind the two plots `generate_shap_plot` draws: the top-10
waterfall entries (feature names, signed SHAP values, and the patient's
feature values for the y-axis labels), the reconstructed score
`f_x = base_value + np.sum(sv)` shown as the waterfall title, and the
top-20 importance-bar entries (feature names and absolute SHAP values). -/
structure ShapPlotData where
  top_features : List String
  top_values : List ℚ
  top_data : List FVal
  f_x : ℚ
  top_features_20 : List String
  abs_values_20 : List ℚ
deriving DecidableEq, Repr

/-- The ranking logic of `generate_shap_plot` (app.py lines 396–482),
stripped of the matplotlib drawing: select `sv` and the baseline, rank all
features by descending `np.abs(sv)` and keep 10 for the waterfall
(`top_values = sv[sorted_idx]` keeps signs, `top_data` are the patient's
input values), set the title score `f_x = base_value + np.sum(sv)`, and
rank again by descending `np.abs(sv)` keeping 20 for the bar plot of
absolute values. -/
def generate_shap_plot (output : ShapOutput) (input_df : Df) : ShapPlotData :=
  let sv := (select_sv_base output).1
  let base_value := (select_sv_base output).2
  let feature_names := input_df.map Prod.fst
  let sorted_idx := (argsortDesc (absList sv)).take 10
  let sorted_idx_20 := (argsortDesc (absList sv)).take 20
  { top_features := sorted_idx.map (fun i => feature_names.getD i "")
    top_values := sorted_idx.map (fun i => sv.getD i 0)
    top_data := sorted_idx.map (fun i => (input_df.map Prod.snd).getD i FVal.fnan)
    f_x := base_value + sv.sum
    top_features_20 := sorted_idx_20.map (fun i => feature_names.getD i "")
    abs_values_20 := sorted_idx_20.map (fun i => |sv.getD i 0|) }

/-- Modelled from the spec: the model's mean absolute attribution per
feature over the rows of an attribution matrix ("the top 20 features by
the model's overall mean absolute attribution computed once during the
same call" — the matrix available in the call is the one computed for the
submitted vector). -/
def meanAbsAttribution (rows : List (List ℚ)) (n : ℕ) : List ℚ :=
  (List.range n).map (fun i => (rows.map (fun r => |r.getD i 0|)).sum / rows.length)

theorem absList_getD (sv : List ℚ) (j : ℕ) : (absList sv).getD j 0 = |sv.getD j 0| := by
  by_cases hj : j < sv.length
  · rw [List.getD_eq_getElem sv 0 hj,
      List.getD_eq_getElem (absList sv) 0 (by simpa [absList] using hj)]
    simp [absList]
  · rw [List.getD_eq_default sv 0 (le_of_not_lt hj),
      List.getD_eq_default (absList sv) 0 (by simpa [absList] using le_of_not_lt hj)]
    simp

theorem map_range_getD {β : Type} (f : ℚ → β) (l : List ℚ) :
    (List.range l.length).map (fun i => f (l.getD i 0)) = l.map f := by
  apply List.ext_getElem
  · simp
  · intro i h1 h2
    simp only [List.getElem_map, List.getElem_range]
    rw [List.getD_eq_getElem l 0 (by simpa using h2)]

theorem meanAbsAttribution_single (sv : List ℚ) :
    meanAbsAttribution [sv] sv.length = absList sv := by
  rw [meanAbsAttribution, absList, ← map_range_getD (fun q => |q|) sv]
  apply List.map_congr_left
  intro i _
  simp

theorem argsortDesc_perm (key : List ℚ) :
    List.Perm (argsortDesc key) (List.range key.length) :=
  List.perm_insertionSort (descKeyRel key) (List.range key.length)

theorem argsortDesc_sorted (key : List ℚ) :
    List.Sorted (descKeyRel key) (argsortDesc key) :=
  List.sorted_insertionSort (descKeyRel key) (List.range key.length)

theorem argsortDesc_nodup (key : List ℚ) : (argsortDesc key).Nodup :=
  ((argsortDesc_perm key).nodup_iff).mpr (List.nodup_range _)

theorem argsortDesc_mem (key : List ℚ) (i : ℕ) :
    i ∈ argsortDesc key ↔ i < key.length := by
  rw [(argsortDesc_perm key).mem_iff, List.mem_range]

theorem argsortDesc_length (key : List ℚ) :
    (argsortDesc key).length = key.length := by
  rw [(argsortDesc_perm key).length_eq, List.length_range]

/-- Every feature index left out of the first `k` ranked indices has a key
no larger than any of the kept ones. -/
theorem argsortDesc_take_dominates (key : List ℚ) (k j : ℕ) (hj : j < key.length)
    (hnot : j ∉ (argsortDesc key).take k) :
    ∀ i ∈ (argsortDesc key).take k, key.getD j 0 ≤ key.getD i 0 := by
  have hsplit : (argsortDesc key).take k ++ (argsortDesc key).drop k = argsortDesc key :=
    List.take_append_drop k _
  have hall : List.Pairwise (descKeyRel key)
      ((argsortDesc key).take k ++ (argsortDesc key).drop k) := by
    rw [hsplit]
    exact argsortDesc_sorted key
  have hjdrop : j ∈ (argsortDesc key).drop k := by
    have hj2 : j ∈ (argsortDesc key).take k ++ (argsortDesc key).drop k := by
      rw [hsplit]
      exact (argsortDesc_mem key j).mpr hj
    rcases List.mem_append.mp hj2 with h | h
    · exact absurd h hnot
    · exact h
  intro i hi
  exact (List.pairwise_append.mp hall).2.2 i hi j hjdrop

theorem select_sv_base_fst (output : ShapOutput) :
    (select_sv_base output).1 = (shapRows output).headD [] := by
  cases output <;> rfl

/-- C7: `generate_shap_plot` produces two rankings.  For the single-row
call (the attribution matrix holds exactly the submitted vector's row
`sv0`): the top-10 list pairs feature names with the *signed* attribution
values of the same ten indices — distinct valid feature indices, ordered
by descending absolute attribution, and dominating every index left out —
and the top-20 list is the ranking by the mean absolute attribution of the
matrix computed in this same call (for the one-row matrix this mean is the
row's absolute attribution), truncated to 20. -/
theorem C7_two_rankings (output : ShapOutput) (input_df : Df) (sv0 : List ℚ)
    (hrows : shapRows output = [sv0]) :
    ∃ idx : List ℕ,
      (generate_shap_plot output input_df).top_features
        = idx.map (fun i => (input_df.map Prod.fst).getD i "")
      ∧ (generate_shap_plot output input_df).top_values
        = idx.map (fun i => sv0.getD i 0)
      ∧ idx.length = min 10 sv0.length
      ∧ idx.Nodup
      ∧ (∀ i ∈ idx, i < sv0.length)
      ∧ List.Pairwise (fun i j => |sv0.getD j 0| ≤ |sv0.getD i 0|) idx
      ∧ (∀ j < sv0.length, j ∉ idx → ∀ i ∈ idx, |sv0.getD j 0| ≤ |sv0.getD i 0|)
      ∧ (generate_shap_plot output input_df).top_features_20
        = ((argsortDesc (meanAbsAttribution (shapRows output) sv0.length)).take 20).map
            (fun i => (input_df.map Prod.fst).getD i "")
      ∧ (generate_shap_plot output input_df).top_features_20.length = min 20 sv0.length := by
  have hsv : (select_sv_base output).1 = sv0 := by
    rw [select_sv_base_fst, hrows]
    rfl
  refine ⟨(argsortDesc (absList sv0)).take 10, ?_, ?_, ?_, ?_, ?_, ?_, ?_, ?_, ?_⟩
  · simp [generate_shap_plot, hsv]
  · simp [generate_shap_plot, hsv]
  · rw [List.length_take, argsortDesc_length]
    simp [absList]
  · exact (argsortDesc_nodup (absList sv0)).sublist (List.take_sublist _ _)
  · intro i hi
    have h := (argsortDesc_mem (absList sv0) i).mp (List.mem_of_mem_take hi)
    simpa [absList] using h
  · have hp : List.Pairwise (descKeyRel (absList sv0)) ((argsortDesc (absList sv0)).take 10) :=
      List.Pairwise.sublist (List.take_sublist _ _) (argsortDesc_sorted (absList sv0))
    refine hp.imp ?_
    intro i j hij
    rw [descKeyRel, absList_getD, absList_getD] at hij
    exact hij
  · intro j hj hnot i hi
    have h := argsortDesc_take_dominates (absList sv0) 10 j (by simpa [absList] using hj)
      hnot i hi
    rw [absList_getD, absList_getD] at h
    exact h
  · rw [hrows, meanAbsAttribution_single]
    simp [generate_shap_plot, hsv]
  · simp [generate_shap_plot, hsv, List.length_take, argsortDesc_length, absList]

/-- C7 witness: a three-feature single-matrix call. -/
theorem C7_two_rankings_witness :
    ∃ idx : List ℕ,
      (generate_shap_plot (ShapOutput.single [[1, -3, 2]] (1/2))
          [("a", FVal.fnum 1), ("b", FVal.fnum 0), ("c", FVal.fnum 1)]).top_features
        = idx.map (fun i =>
            (([("a", FVal.fnum 1), ("b", FVal.fnum 0), ("c", FVal.fnum 1)] : Df).map
              Prod.fst).getD i "")
      ∧ (generate_shap_plot (ShapOutput.single [[1, -3, 2]] (1/2))
          [("a", FVal.fnum 1), ("b", FVal.fnum 0), ("c", FVal.fnum 1)]).top_values
        = idx.map (fun i => ([1, -3, 2] : List ℚ).getD i 0)
      ∧ idx.length = min 10 ([1, -3, 2] : List ℚ).length
      ∧ idx.Nodup
      ∧ (∀ i ∈ idx, i < ([1, -3, 2] : List ℚ).length)
      ∧ List.Pairwise (fun i j =>
          |([1, -3, 2] : List ℚ).getD j 0| ≤ |([1, -3, 2] : List ℚ).getD i 0|) idx
      ∧ (∀ j < ([1, -3, 2] : List ℚ).length, j ∉ idx →
          ∀ i ∈ idx, |([1, -3, 2] : List ℚ).getD j 0| ≤ |([1, -3, 2] : List ℚ).getD i 0|)
      ∧ (generate_shap_plot (ShapOutput.single [[1, -3, 2]] (1/2))
          [("a", FVal.fnum 1), ("b", FVal.fnum 0), ("c", FVal.fnum 1)]).top_features_20
        = ((argsortDesc (meanAbsAttribution
              (shapRows (ShapOutput.single [[1, -3, 2]] (1/2)))
              ([1, -3, 2] : List ℚ).length)).take 20).map
            (fun i =>
              (([("a", FVal.fnum 1), ("b", FVal.fnum 0), ("c", FVal.fnum 1)] : Df).map
                Prod.fst).getD i "")
      ∧ (generate_shap_plot (ShapOutput.single [[1, -3, 2]] (1/2))
          [("a", FVal.fnum 1), ("b", FVal.fnum 0),
            ("c", FVal.fnum 1)]).top_features_20.length
        = min 20 ([1, -3, 2] : List ℚ).length :=
  C7_two_rankings (ShapOutput.single [[1, -3, 2]] (1/2))
    [("a", FVal.fnum 1), ("b", FVal.fnum 0), ("c", FVal.fnum 1)] [1, -3, 2] rfl

/-- C8: the pipeline handles both attribution shapes.  On a two-matrix
(negative/positive class) output, the whole result — every downstream
ranking and the reconstructed score — equals the result on the
positive-class matrix with the positive-class baseline alone, so the
negative-class data is never used; on a single-matrix output the single
matrix's first row and the scalar baseline feed the reconstructed score
`f_x = base + sum(sv)`. -/
theorem C8_positive_class_used (neg pos vals : List (List ℚ))
    (expectedNeg expectedPos e : ℚ) (input_df : Df) :
    generate_shap_plot (ShapOutput.pair neg pos expectedNeg expectedPos) input_df
      = generate_shap_plot (ShapOutput.single pos expectedPos) input_df
    ∧ (generate_shap_plot (ShapOutput.single vals e) input_df).f_x
      = e + (vals.headD []).sum
    ∧ (generate_shap_plot (ShapOutput.pair neg pos expectedNeg expectedPos) input_df).f_x
      = expectedPos + (pos.headD []).sum :=
  ⟨rfl, rfl, rfl⟩
